import Mathlib

/-!
Verification of the verified-identity query-federation gateway described by the
repository's specification, together with a model of the two Databricks
notebooks (`src/notebooks/quickstart.py`, `src/notebooks/federation_demo.py`)
that exercise it.

The notebooks themselves contain only configuration and sequential API calls;
the gateway core (Credential Verifier, Principal Binder, Session Registry,
Federation Gateway) is specified in `spec.md` but its implementation is not
part of `src/`.  Those components are therefore modelled from the spec, and
each such definition says so in its doc comment.  The notebook connection
calls are translated directly from the Python sources.
-/

/-- Identity string asserted by a client or confirmed by the identity provider. -/
abbrev Principal := String

/-- Opaque bearer token string presented by the client. -/
abbrev Credential := String

/-- Modelled from the spec: the response of one identity-provider lookup
attempt (`GET /identity/me`-style call).  The provider either resolves the
bearer credential to a canonical principal, reports it unauthorized, reports
it expired, or times out. -/
inductive ProviderResponse where
  | ok (principal : Principal)
  | unauthorized
  | expired
  | timeout
deriving DecidableEq, Repr

/-- Modelled from the spec: error conditions of `Verify` (spec section 4.1). -/
inductive VerifyError where
  | CredentialInvalid
  | CredentialExpired
  | ProviderUnavailable
deriving DecidableEq, Repr

/-- Modelled from the spec: "at most 3 attempts" for provider-unavailable retries. -/
def maxAttempts : Nat := 3

/-- Modelled from the spec: the retry loop around the external identity-provider
lookup.  `resp n` is the provider's response to the n-th attempt (attempts are
numbered from 0).  Timeouts are retried while fuel remains; `CredentialInvalid`
and `CredentialExpired` are terminal and surfaced immediately.  Returns the
result together with the number of attempts actually made. -/
def runLookup (resp : Nat → ProviderResponse) : Nat → Nat → Except VerifyError Principal × Nat
  | attempt, 0 => (Except.error VerifyError.ProviderUnavailable, attempt)
  | attempt, fuel + 1 =>
    match resp attempt with
    | ProviderResponse.ok p => (Except.ok p, attempt + 1)
    | ProviderResponse.unauthorized => (Except.error VerifyError.CredentialInvalid, attempt + 1)
    | ProviderResponse.expired => (Except.error VerifyError.CredentialExpired, attempt + 1)
    | ProviderResponse.timeout =>
      if fuel = 0 then (Except.error VerifyError.ProviderUnavailable, attempt + 1)
      else runLookup resp (attempt + 1) fuel

/-- Modelled from the spec: credentials are hashed before being stored in the
verification cache ("credential is hashed, never stored in plaintext"). -/
def hashCred (c : Credential) : UInt64 := c.hash

/-- Modelled from the spec: a VerificationCache entry
{credentialHash, verifiedPrincipal, expiresAt}. -/
structure CacheEntry where
  credentialHash : UInt64
  verifiedPrincipal : Principal
  expiresAt : Nat
deriving DecidableEq, Repr

/-- Modelled from the spec: the Credential Verifier's mutable state, a
verification cache with TTL. -/
structure VerifierState where
  cache : List CacheEntry
deriving DecidableEq, Repr

/-- Modelled from the spec: cache lookup — an entry hits when its credential
hash matches and it has not expired at time `now`. -/
def cacheLookup (st : VerifierState) (now : Nat) (cred : Credential) : Option Principal :=
  (st.cache.find? fun e => e.credentialHash == hashCred cred && decide (now < e.expiresAt)).map
    fun e => e.verifiedPrincipal

/-- Modelled from the spec: `Verify(credential) -> VerifiedPrincipal | error`
(spec section 4.1).  On a cache hit it answers without a network call; on a
miss it runs the provider lookup with bounded retry, caches the result on
success only, and surfaces failures without touching the cache.  Returns the
result, the updated verifier state, and the number of provider attempts made. -/
def Verify (resp : Credential → Nat → ProviderResponse) (ttl : Nat) (now : Nat)
    (st : VerifierState) (cred : Credential) :
    Except VerifyError Principal × VerifierState × Nat :=
  match cacheLookup st now cred with
  | some p => (Except.ok p, st, 0)
  | none =>
    match runLookup (resp cred) 0 maxAttempts with
    | (Except.ok p, n) =>
      (Except.ok p,
        ⟨{ credentialHash := hashCred cred, verifiedPrincipal := p,
           expiresAt := now + ttl } :: st.cache⟩, n)
    | (Except.error e, n) => (Except.error e, st, n)

/-- Modelled from the spec: the per-Session state machine states. -/
inductive SessionState where
  | active
  | terminated
deriving DecidableEq, Repr

/-- Modelled from the spec: a Session
{sessionId, verifiedPrincipal, createdAt, lastActivityAt, state}. -/
structure Session where
  sessionId : Nat
  verifiedPrincipal : Principal
  createdAt : Nat
  lastActivityAt : Nat
  state : SessionState
deriving DecidableEq, Repr

/-- Modelled from the spec: the Session Registry — live sessions, a fresh-id
counter, and the configurable idle timeout. -/
structure Registry where
  sessions : List Session
  nextId : Nat
  idleTimeout : Nat
deriving DecidableEq, Repr

/-- Modelled from the spec: `Create(verifiedPrincipal) -> Session`. -/
def Registry.create (reg : Registry) (p : Principal) (now : Nat) : Session × Registry :=
  let s : Session :=
    { sessionId := reg.nextId, verifiedPrincipal := p, createdAt := now,
      lastActivityAt := now, state := SessionState.active }
  (s, { reg with sessions := s :: reg.sessions, nextId := reg.nextId + 1 })

/-- Modelled from the spec: `Get(sessionId) -> Session | NotFound`. -/
def Registry.get (reg : Registry) (sid : Nat) : Option Session :=
  reg.sessions.find? fun s => s.sessionId == sid

/-- Modelled from the spec: `Revoke(sessionId)`, idempotent — revoking an
already-absent session is not an error. -/
def Registry.revoke (reg : Registry) (sid : Nat) : Registry :=
  { reg with sessions := reg.sessions.filter fun s => s.sessionId != sid }

/-- Modelled from the spec: a session's idle timeout has elapsed at time `now`. -/
def Session.isExpired (s : Session) (now : Nat) (timeout : Nat) : Bool :=
  s.lastActivityAt + timeout ≤ now

/-- Modelled from the spec: `Sweep()` removes the sessions whose idle timeout
has elapsed at the time of the call. -/
def Registry.sweep (reg : Registry) (now : Nat) : Registry :=
  { reg with sessions := reg.sessions.filter fun s => ! s.isExpired now reg.idleTimeout }

/-- Modelled from the spec: refresh a session's `lastActivityAt` when a query
runs on it.  Only the activity timestamp changes. -/
def Registry.touch (reg : Registry) (sid : Nat) (now : Nat) : Registry :=
  { reg with sessions := reg.sessions.map fun s =>
      if s.sessionId == sid then { s with lastActivityAt := now } else s }

/-- Modelled from the spec: errors returned by `Bind` — either the claimed and
verified principals disagree, or verification itself failed.  The
`IdentityMismatch` constructor carries no data, so the error can never reveal
the true verified principal. -/
inductive BindError where
  | IdentityMismatch
  | verifyFailed (e : VerifyError)
deriving DecidableEq, Repr

/-- Modelled from the spec: `Bind(claimedPrincipal, credential) -> Session | error`
(spec section 4.2).  Calls `Verify`, compares the resolved principal to the
claimed one with exact, case-sensitive string equality, creates and registers
a Session only on a match, and returns `IdentityMismatch` (with no principal
inside) on a mismatch. -/
def Binder.Bind (resp : Credential → Nat → ProviderResponse) (ttl : Nat) (now : Nat)
    (reg : Registry) (vst : VerifierState) (claimed : Principal) (cred : Credential) :
    Except BindError Session × Registry × VerifierState :=
  let v := Verify resp ttl now vst cred
  match v.1 with
  | Except.ok p =>
    if claimed = p then
      let c := reg.create p now
      (Except.ok c.1, c.2, v.2.1)
    else
      (Except.error BindError.IdentityMismatch, reg, v.2.1)
  | Except.error e => (Except.error (BindError.verifyFailed e), reg, v.2.1)

/-- Modelled from the spec: what the Federation Gateway hands back for one
connection — the bind outcome, the audit log of executed queries (each tagged
with the principal it was attributed to), and whether the connection was
closed without query execution. -/
structure GatewayResult where
  outcome : Except BindError Session
  executedQueries : List (Principal × String)
  connectionClosed : Bool
deriving Repr

/-- Modelled from the spec: the Federation Gateway's handling of one
connection carrying {claimedPrincipal, credential} and a sequence of queries
(spec section 4.4).  On bind success every query is executed tagged with the
Session's verifiedPrincipal; on bind failure the connection is closed
immediately, no query is executed, and the Binder's error is returned. -/
def handleConnection (resp : Credential → Nat → ProviderResponse) (ttl : Nat) (now : Nat)
    (reg : Registry) (vst : VerifierState) (claimed : Principal) (cred : Credential)
    (queries : List String) : GatewayResult × Registry × VerifierState :=
  match Binder.Bind resp ttl now reg vst claimed cred with
  | (Except.ok s, reg2, vst2) =>
    ({ outcome := Except.ok s,
       executedQueries := queries.map fun q => (s.verifiedPrincipal, q),
       connectionClosed := false }, reg2, vst2)
  | (Except.error e, reg2, vst2) =>
    ({ outcome := Except.error e, executedQueries := [], connectionClosed := true },
      reg2, vst2)

/-- Modelled from the spec: executing one query on an already-bound session.
The client's later message may carry a fresh claimed identity
(`laterClaimed`), but the claimed identity is only consulted at bind time, so
the audit attribution uses the Session's stored verifiedPrincipal.  Returns
the audit entry (if the session exists and is active) and the registry with
the session's activity refreshed. -/
def execOnSession (reg : Registry) (sid : Nat) (laterClaimed : Principal) (q : String)
    (now : Nat) : Option (Principal × String) × Registry :=
  match reg.get sid with
  | some s =>
    if s.state = SessionState.active then
      (some (s.verifiedPrincipal, q), reg.touch sid now)
    else (none, reg)
  | none => (none, reg)

/-- Modelled from the spec: the request-coalescing state of the Credential
Verifier.  `inFlight` maps each credential with an in-flight provider lookup
to the callers waiting on it; `delivered` records the result each caller
received; `lookups` logs every provider lookup issued; `completed` logs every
lookup that finished. -/
structure Coalescer where
  inFlight : List (Credential × List Nat)
  delivered : List (Nat × Except VerifyError Principal)
  lookups : List Credential
  completed : List Credential
deriving Repr

/-- Modelled from the spec: the coalescer starts empty. -/
def Coalescer.init : Coalescer := ⟨[], [], [], []⟩

/-- True when some in-flight entry is for credential `c`. -/
def hasKey (l : List (Credential × List Nat)) (c : Credential) : Bool :=
  l.any fun kv => kv.1 == c

/-- The credentials that currently have an in-flight lookup. -/
def keysOf (l : List (Credential × List Nat)) : List Credential :=
  l.map fun kv => kv.1

/-- Modelled from the spec: one interleaving step of concurrent `Verify`
callers (spec sections 4.1 and 5).  A caller whose credential has no lookup in
flight starts one (issuing a provider lookup); a caller whose credential is
already in flight joins the waiters without issuing a lookup; a completing
lookup delivers its single result to every waiter. -/
inductive CStep : Coalescer → Coalescer → Prop where
  | requestNew (st : Coalescer) (caller : Nat) (c : Credential)
      (h : hasKey st.inFlight c = false) :
      CStep st { st with inFlight := (c, [caller]) :: st.inFlight, lookups := c :: st.lookups }
  | requestJoin (st : Coalescer) (caller : Nat) (c : Credential)
      (h : hasKey st.inFlight c = true) :
      CStep st { st with inFlight := st.inFlight.map fun kv =>
        if kv.1 == c then (kv.1, caller :: kv.2) else kv }
  | complete (st : Coalescer) (c : Credential) (ws : List Nat)
      (r : Except VerifyError Principal) (h : (c, ws) ∈ st.inFlight) :
      CStep st { st with
        inFlight := st.inFlight.filter fun kv => kv.1 != c,
        delivered := (ws.map fun caller => (caller, r)) ++ st.delivered,
        completed := c :: st.completed }

/-- States reachable from the empty coalescer by interleaved steps. -/
inductive Reachable : Coalescer → Prop where
  | init : Reachable Coalescer.init
  | step {st st2 : Coalescer} : Reachable st → CStep st st2 → Reachable st2

/-- The coalescing invariant: at most one in-flight lookup per distinct
credential, and the number of provider lookups ever issued for a credential is
exactly the number of completed episodes plus one if a lookup is currently in
flight. -/
def CoalInv (st : Coalescer) : Prop :=
  (keysOf st.inFlight).Nodup ∧
    ∀ c : Credential,
      st.lookups.count c = st.completed.count c + (if hasKey st.inFlight c then 1 else 0)

/-- Arguments of a `trino.dbapi.connect` call as made by the notebooks. -/
structure TrinoConnectArgs where
  host : String
  port : Nat
  user : String
  http_scheme : String
  authUser : String
  authPassword : String
  verify : Bool
deriving DecidableEq, Repr

/-- A straight-line setup action performed by a notebook. -/
inductive NotebookAction where
  | disableWarning (w : String)
  | connectCall (args : TrinoConnectArgs)
deriving DecidableEq, Repr

/-- The `connect(...)` call of `src/notebooks/quickstart.py` lines 31-38. -/
def quickstart_conn (username : String) (token : String) : TrinoConnectArgs :=
  { host := "your-trino-host.compute.amazonaws.com", port := 9443, user := username,
    http_scheme := "https", authUser := username, authPassword := token, verify := false }

/-- The `connect(...)` call of `src/notebooks/federation_demo.py` lines 45-52. -/
def federation_conn (username : String) (token : String) : TrinoConnectArgs :=
  { host := "your-trino-host.compute.amazonaws.com", port := 9443, user := username,
    http_scheme := "https", authUser := username, authPassword := token, verify := false }

/-- The spoof-attempt `connect(...)` call of `src/notebooks/federation_demo.py`
lines 130-137: the claimed user is `fake@evil.com` while the token is the real
user's token. -/
def federation_bad_conn (token : String) : TrinoConnectArgs :=
  { host := "your-trino-host.compute.amazonaws.com", port := 9443, user := "fake@evil.com",
    http_scheme := "https", authUser := "fake@evil.com", authPassword := token,
    verify := false }

/-- The setup actions of `src/notebooks/quickstart.py` in source order:
suppress `InsecureRequestWarning` (lines 14-15), then connect (lines 31-38). -/
def quickstart_actions (username : String) (token : String) : List NotebookAction :=
  [NotebookAction.disableWarning "InsecureRequestWarning",
   NotebookAction.connectCall (quickstart_conn username token)]

/-- The setup actions of `src/notebooks/federation_demo.py` in source order:
suppress `InsecureRequestWarning` (lines 28-29), the demo connect (lines
45-52), and the deliberate spoof-attempt connect (lines 130-137). -/
def federation_demo_actions (username : String) (token : String) : List NotebookAction :=
  [NotebookAction.disableWarning "InsecureRequestWarning",
   NotebookAction.connectCall (federation_conn username token),
   NotebookAction.connectCall (federation_bad_conn token)]

/-- An action is an insecure connect call: https scheme with TLS certificate
verification disabled. -/
def insecureHttpsConnect (a : NotebookAction) : Bool :=
  match a with
  | NotebookAction.connectCall args => args.http_scheme == "https" && args.verify == false
  | NotebookAction.disableWarning _ => false

/-- An action is any connect call. -/
def isConnectCall (a : NotebookAction) : Bool :=
  match a with
  | NotebookAction.connectCall _ => true
  | NotebookAction.disableWarning _ => false

/-! ## Theorems -/

/-- C10: every Trino connection the notebooks establish (the quickstart
connection, the demo connection, and the deliberate spoof-attempt connection)
uses http_scheme="https" with TLS certificate verification disabled
(verify=False), and both notebooks suppress urllib3's InsecureRequestWarning,
so no connect call in the code authenticates the server's certificate. -/
theorem notebooks_connect_https_without_tls_verification (username token : String) :
    ((quickstart_actions username token).filter isConnectCall).all insecureHttpsConnect = true ∧
    ((federation_demo_actions username token).filter isConnectCall).all insecureHttpsConnect
      = true ∧
    NotebookAction.disableWarning "InsecureRequestWarning" ∈ quickstart_actions username token ∧
    NotebookAction.disableWarning "InsecureRequestWarning" ∈
      federation_demo_actions username token := by
  refine ⟨rfl, rfl, ?_, ?_⟩ <;>
    simp [quickstart_actions, federation_demo_actions]

/-- C7: Sweep removes from the Session Registry exactly the sessions whose
idle timeout has elapsed at the time of the call and no others; every
non-expired session is kept unchanged. -/
theorem sweep_removes_exactly_expired (reg : Registry) (now : Nat) (s : Session) :
    s ∈ (reg.sweep now).sessions ↔
      s ∈ reg.sessions ∧ s.isExpired now reg.idleTimeout = false := by
  simp [Registry.sweep, List.mem_filter]

/-- C5: Verify populates the VerificationCache on success only; every
erroneous outcome leaves the cache unchanged. -/
theorem verify_failure_leaves_cache_unchanged
    (resp : Credential → Nat → ProviderResponse) (ttl now : Nat) (st : VerifierState)
    (cred : Credential) (e : VerifyError)
    (h : (Verify resp ttl now st cred).1 = Except.error e) :
    (Verify resp ttl now st cred).2.1 = st := by
  unfold Verify at h ⊢
  cases hc : cacheLookup st now cred with
  | some p => simp [hc] at h
  | none =>
    cases hr : runLookup (resp cred) 0 maxAttempts with
    | mk r n =>
      cases r with
      | ok p => simp [hc, hr] at h
      | error e2 => simp [hc, hr]

/-- C5 witness: an expired credential fails with CredentialExpired and writes
no cache entry. -/
theorem verify_failure_leaves_cache_unchanged_witness :
    (Verify (fun _ _ => ProviderResponse.expired) 10 0 ⟨[]⟩ "expired-token").2.1 = ⟨[]⟩ :=
  verify_failure_leaves_cache_unchanged (fun _ _ => ProviderResponse.expired) 10 0 ⟨[]⟩
    "expired-token" VerifyError.CredentialExpired rfl

/-- C1: when the claimed principal is not the true owner of the credential
(the principal the Verifier resolves it to), Bind returns IdentityMismatch,
no Session is created (the registry is unchanged), and the Gateway closes the
connection without executing any query. -/
theorem mismatch_rejected_without_session_or_query
    (resp : Credential → Nat → ProviderResponse) (ttl now : Nat) (reg : Registry)
    (vst : VerifierState) (claimed : Principal) (cred : Credential)
    (queries : List String) (p : Principal)
    (hv : (Verify resp ttl now vst cred).1 = Except.ok p)
    (hne : claimed ≠ p) :
    (Binder.Bind resp ttl now reg vst claimed cred).1 =
        Except.error BindError.IdentityMismatch ∧
    (handleConnection resp ttl now reg vst claimed cred queries).1.outcome =
        Except.error BindError.IdentityMismatch ∧
    (handleConnection resp ttl now reg vst claimed cred queries).1.executedQueries = [] ∧
    (handleConnection resp ttl now reg vst claimed cred queries).1.connectionClosed = true ∧
    (handleConnection resp ttl now reg vst claimed cred queries).2.1 = reg := by
  simp [handleConnection, Binder.Bind, hv, hne]

/-- C1 witness: claimed fake@evil.com with alice's token is rejected with no
session and no executed query. -/
theorem mismatch_rejected_without_session_or_query_witness :
    (Binder.Bind (fun _ _ => ProviderResponse.ok "alice@co.com") 10 0 ⟨[], 0, 100⟩ ⟨[]⟩
        "fake@evil.com" "token-for-alice").1 = Except.error BindError.IdentityMismatch ∧
    (handleConnection (fun _ _ => ProviderResponse.ok "alice@co.com") 10 0 ⟨[], 0, 100⟩ ⟨[]⟩
        "fake@evil.com" "token-for-alice" ["SELECT 1"]).1.outcome =
      Except.error BindError.IdentityMismatch ∧
    (handleConnection (fun _ _ => ProviderResponse.ok "alice@co.com") 10 0 ⟨[], 0, 100⟩ ⟨[]⟩
        "fake@evil.com" "token-for-alice" ["SELECT 1"]).1.executedQueries = [] ∧
    (handleConnection (fun _ _ => ProviderResponse.ok "alice@co.com") 10 0 ⟨[], 0, 100⟩ ⟨[]⟩
        "fake@evil.com" "token-for-alice" ["SELECT 1"]).1.connectionClosed = true ∧
    (handleConnection (fun _ _ => ProviderResponse.ok "alice@co.com") 10 0 ⟨[], 0, 100⟩ ⟨[]⟩
        "fake@evil.com" "token-for-alice" ["SELECT 1"]).2.1 = ⟨[], 0, 100⟩ :=
  mismatch_rejected_without_session_or_query (fun _ _ => ProviderResponse.ok "alice@co.com")
    10 0 ⟨[], 0, 100⟩ ⟨[]⟩ "fake@evil.com" "token-for-alice" ["SELECT 1"] "alice@co.com"
    rfl (by decide)

/-- C2: Bind compares the resolved principal to the claimed principal with
exact, case-sensitive string equality: when they are equal Bind succeeds and
the returned Session's verifiedPrincipal equals the claimed principal, and
when they differ at all Bind fails with IdentityMismatch. -/
theorem bind_exact_case_sensitive_equality
    (resp : Credential → Nat → ProviderResponse) (ttl now : Nat) (reg : Registry)
    (vst : VerifierState) (claimed : Principal) (cred : Credential) (p : Principal)
    (hv : (Verify resp ttl now vst cred).1 = Except.ok p) :
    (claimed = p →
      (Binder.Bind resp ttl now reg vst claimed cred).1 =
          Except.ok (reg.create p now).1 ∧
        ((reg.create p now).1).verifiedPrincipal = claimed) ∧
    (claimed ≠ p →
      (Binder.Bind resp ttl now reg vst claimed cred).1 =
        Except.error BindError.IdentityMismatch) := by
  constructor
  · intro he
    subst he
    simp [Binder.Bind, hv, Registry.create]
  · intro hne
    simp [Binder.Bind, hv, hne]

/-- C2 witness: claimedPrincipal "alice@co.com" with a credential owned by
alice@co.com binds successfully and the Session's verifiedPrincipal equals
the claimed principal. -/
theorem bind_exact_case_sensitive_equality_witness :
    (Binder.Bind (fun _ _ => ProviderResponse.ok "alice@co.com") 10 0 ⟨[], 0, 100⟩ ⟨[]⟩
        "alice@co.com" "token-for-alice").1 =
      Except.ok ((⟨[], 0, 100⟩ : Registry).create "alice@co.com" 0).1 ∧
    (((⟨[], 0, 100⟩ : Registry).create "alice@co.com" 0).1).verifiedPrincipal =
      "alice@co.com" :=
  (bind_exact_case_sensitive_equality (fun _ _ => ProviderResponse.ok "alice@co.com")
    10 0 ⟨[], 0, 100⟩ ⟨[]⟩ "alice@co.com" "token-for-alice" "alice@co.com" rfl).1 rfl

/-- C8: when Bind rejects because of a claimed/verified principal mismatch,
everything the caller observes (the outcome error, the executed-query log and
the connection-closed flag) is identical for any two credentials with any two
true owners, so the response reveals nothing about the true verifiedPrincipal. -/
theorem mismatch_error_independent_of_true_principal
    (resp1 resp2 : Credential → Nat → ProviderResponse) (ttl now : Nat) (reg : Registry)
    (vst1 vst2 : VerifierState) (claimed : Principal) (cred1 cred2 : Credential)
    (queries : List String) (p1 p2 : Principal)
    (hv1 : (Verify resp1 ttl now vst1 cred1).1 = Except.ok p1)
    (hv2 : (Verify resp2 ttl now vst2 cred2).1 = Except.ok p2)
    (h1 : claimed ≠ p1) (h2 : claimed ≠ p2) :
    (handleConnection resp1 ttl now reg vst1 claimed cred1 queries).1.outcome =
        (handleConnection resp2 ttl now reg vst2 claimed cred2 queries).1.outcome ∧
    (handleConnection resp1 ttl now reg vst1 claimed cred1 queries).1.executedQueries =
        (handleConnection resp2 ttl now reg vst2 claimed cred2 queries).1.executedQueries ∧
    (handleConnection resp1 ttl now reg vst1 claimed cred1 queries).1.connectionClosed =
        (handleConnection resp2 ttl now reg vst2 claimed cred2 queries).1.connectionClosed := by
  simp [handleConnection, Binder.Bind, hv1, hv2, h1, h2]

/-- C8 witness: the rejection of fake@evil.com looks the same whether the
credential's true owner is alice@co.com or bob@co.com. -/
theorem mismatch_error_independent_of_true_principal_witness :
    (handleConnection (fun _ _ => ProviderResponse.ok "alice@co.com") 10 0 ⟨[], 0, 100⟩ ⟨[]⟩
        "fake@evil.com" "token-for-alice" ["SELECT 1"]).1.outcome =
      (handleConnection (fun _ _ => ProviderResponse.ok "bob@co.com") 10 0 ⟨[], 0, 100⟩ ⟨[]⟩
        "fake@evil.com" "token-for-bob" ["SELECT 1"]).1.outcome :=
  (mismatch_error_independent_of_true_principal
    (fun _ _ => ProviderResponse.ok "alice@co.com") (fun _ _ => ProviderResponse.ok "bob@co.com")
    10 0 ⟨[], 0, 100⟩ ⟨[]⟩ ⟨[]⟩ "fake@evil.com" "token-for-alice" "token-for-bob" ["SELECT 1"]
    "alice@co.com" "bob@co.com" rfl rfl (by decide) (by decide)).1

/-- C4: on a cache miss, a provider that times out on every attempt makes
Verify fail with ProviderUnavailable after exactly 3 attempts, while
identity-decision failures (CredentialInvalid, CredentialExpired) surface
immediately after exactly 1 attempt, and a mismatch is decided from a single
provider attempt with Bind itself performing no retry. -/
theorem verify_retry_policy
    (resp : Credential → Nat → ProviderResponse) (ttl now : Nat) (st : VerifierState)
    (cred : Credential)
    (hmiss : cacheLookup st now cred = none) :
    ((∀ n, resp cred n = ProviderResponse.timeout) →
      Verify resp ttl now st cred = (Except.error VerifyError.ProviderUnavailable, st, 3)) ∧
    (resp cred 0 = ProviderResponse.unauthorized →
      Verify resp ttl now st cred = (Except.error VerifyError.CredentialInvalid, st, 1)) ∧
    (resp cred 0 = ProviderResponse.expired →
      Verify resp ttl now st cred = (Except.error VerifyError.CredentialExpired, st, 1)) ∧
    (∀ p : Principal, resp cred 0 = ProviderResponse.ok p →
      (Verify resp ttl now st cred).2.2 = 1 ∧
      ∀ claimed : Principal, claimed ≠ p → ∀ reg : Registry,
        (Binder.Bind resp ttl now reg st claimed cred).1 =
          Except.error BindError.IdentityMismatch) := by
  refine ⟨?_, ?_, ?_, ?_⟩
  · intro h
    simp [Verify, hmiss, maxAttempts, runLookup, h 0, h 1, h 2]
  · intro h
    simp [Verify, hmiss, maxAttempts, runLookup, h]
  · intro h
    simp [Verify, hmiss, maxAttempts, runLookup, h]
  · intro p h
    constructor
    · simp [Verify, hmiss, maxAttempts, runLookup, h]
    · intro claimed hne reg
      simp [Binder.Bind, Verify, hmiss, maxAttempts, runLookup, h, hne]

/-- C4 witness: a provider that always times out yields ProviderUnavailable
after exactly 3 attempts on the credential "tok". -/
theorem verify_retry_policy_witness :
    Verify (fun _ _ => ProviderResponse.timeout) 10 0 ⟨[]⟩ "tok" =
      (Except.error VerifyError.ProviderUnavailable, ⟨[]⟩, 3) :=
  (verify_retry_policy (fun _ _ => ProviderResponse.timeout) 10 0 ⟨[]⟩ "tok" rfl).1
    fun _ => rfl

/-- Two searches with predicates that agree on every element find the same
entry. -/
theorem find?_congr_of_agree {α : Type} (l : List α) (p q : α → Bool)
    (h : ∀ a ∈ l, p a = q a) : l.find? p = l.find? q := by
  induction l with
  | nil => rfl
  | cons x xs ih =>
    have hx := h x (List.mem_cons_self x xs)
    simp only [List.find?]
    rw [hx]
    cases q x with
    | true => rfl
    | false => exact ih fun a ha => h a (List.mem_cons_of_mem x ha)

/-- Cache lookups at two times between which no relevant entry expires agree. -/
theorem cacheLookup_congr (st : VerifierState) (t1 t2 : Nat) (cred : Credential)
    (h : ∀ e ∈ st.cache, (t1 < e.expiresAt ↔ t2 < e.expiresAt)) :
    cacheLookup st t1 cred = cacheLookup st t2 cred := by
  unfold cacheLookup
  rw [find?_congr_of_agree st.cache _ _ ?_]
  intro e he
  have hiff := h e he
  by_cases h1 : t1 < e.expiresAt
  · have h2 : t2 < e.expiresAt := hiff.mp h1
    simp [h1, h2]
  · have h2 : ¬ t2 < e.expiresAt := fun hh => h1 (hiff.mpr hh)
    simp [h1, h2]

/-- C6: Verify is deterministic within the cache TTL window — a second call
with the same credential, made after the first and before the TTL written by
the first could expire (and with no pre-existing cache entry changing its
expiry status between the two calls), returns exactly the same
VerifiedPrincipal or the same error. -/
theorem verify_deterministic_within_ttl
    (resp : Credential → Nat → ProviderResponse) (ttl t1 t2 : Nat) (st : VerifierState)
    (cred : Credential)
    (hstable : ∀ e ∈ st.cache, (t1 < e.expiresAt ↔ t2 < e.expiresAt))
    (hwin : t2 < t1 + ttl) :
    (Verify resp ttl t2 (Verify resp ttl t1 st cred).2.1 cred).1 =
      (Verify resp ttl t1 st cred).1 := by
  have hcl := cacheLookup_congr st t1 t2 cred hstable
  cases hc : cacheLookup st t1 cred with
  | some p =>
    have hc2 : cacheLookup st t2 cred = some p := hcl ▸ hc
    simp [Verify, hc, hc2]
  | none =>
    have hc2 : cacheLookup st t2 cred = none := hcl ▸ hc
    cases hr : runLookup (resp cred) 0 maxAttempts with
    | mk r n =>
      cases r with
      | ok p =>
        simp only [Verify, hc, hr]
        simp [cacheLookup, List.find?, hwin]
      | error e =>
        simp [Verify, hc, hc2, hr]

/-- C6 witness: two immediate calls on the same fresh credential inside the
TTL window give the same result. -/
theorem verify_deterministic_within_ttl_witness :
    (Verify (fun _ _ => ProviderResponse.ok "alice@co.com") 5 1
        (Verify (fun _ _ => ProviderResponse.ok "alice@co.com") 5 0 ⟨[]⟩ "tok").2.1 "tok").1 =
      (Verify (fun _ _ => ProviderResponse.ok "alice@co.com") 5 0 ⟨[]⟩ "tok").1 :=
  verify_deterministic_within_ttl (fun _ _ => ProviderResponse.ok "alice@co.com") 5 0 1 ⟨[]⟩
    "tok" (by simp) (by decide)

/-- Touch only refreshes activity timestamps: every session after a touch
corresponds to one before it with the same id and the same principal. -/
theorem touch_preserves_principals (reg : Registry) (sid now : Nat) :
    ∀ s2 ∈ (reg.touch sid now).sessions, ∃ s ∈ reg.sessions,
      s.sessionId = s2.sessionId ∧ s.verifiedPrincipal = s2.verifiedPrincipal := by
  intro s2 hs2
  simp only [Registry.touch, List.mem_map] at hs2
  obtain ⟨s, hs, heq⟩ := hs2
  refine ⟨s, hs, ?_⟩
  by_cases hid : (s.sessionId == sid) = true
  · simp [hid] at heq
    subst heq
    exact ⟨rfl, rfl⟩
  · simp [hid] at heq
    subst heq
    exact ⟨rfl, rfl⟩

/-- A session found by id is a registered session with that id. -/
theorem get_some_mem (reg : Registry) (sid : Nat) (s : Session)
    (h : reg.get sid = some s) : s ∈ reg.sessions ∧ s.sessionId = sid := by
  unfold Registry.get at h
  refine ⟨List.mem_of_find?_eq_some h, ?_⟩
  have hb := List.find?_some h
  simp only [] at hb
  exact eq_of_beq hb

/-- C3: a Session's verifiedPrincipal is immutable for the Session's lifetime:
touch, revoke, sweep, and query execution (even when the later client message
carries a different claimed identity) never change any registered session's
verifiedPrincipal, and the audit attribution of an executed query is the
stored verifiedPrincipal of the bound session, not the later claimed one. -/
theorem verified_principal_immutable
    (reg : Registry) (sid sid2 now : Nat) (laterClaimed : Principal) (q : String) :
    (∀ s2 ∈ (reg.touch sid2 now).sessions, ∃ s ∈ reg.sessions,
        s.sessionId = s2.sessionId ∧ s.verifiedPrincipal = s2.verifiedPrincipal) ∧
    (∀ s2 ∈ (reg.revoke sid2).sessions, s2 ∈ reg.sessions) ∧
    (∀ s2 ∈ (reg.sweep now).sessions, s2 ∈ reg.sessions) ∧
    (∀ s2 ∈ (execOnSession reg sid laterClaimed q now).2.sessions, ∃ s ∈ reg.sessions,
        s.sessionId = s2.sessionId ∧ s.verifiedPrincipal = s2.verifiedPrincipal) ∧
    (∀ p qq, (execOnSession reg sid laterClaimed q now).1 = some (p, qq) →
        ∃ s ∈ reg.sessions, s.sessionId = sid ∧ p = s.verifiedPrincipal ∧ qq = q) := by
  refine ⟨touch_preserves_principals reg sid2 now, ?_, ?_, ?_, ?_⟩
  · intro s2 hs2
    exact List.mem_of_mem_filter hs2
  · intro s2 hs2
    exact List.mem_of_mem_filter hs2
  · intro s2 hs2
    unfold execOnSession at hs2
    cases hget : reg.get sid with
    | some s =>
      rw [hget] at hs2
      by_cases hact : s.state = SessionState.active
      · simp only [hact, if_pos rfl] at hs2
        exact touch_preserves_principals reg sid now s2 hs2
      · simp only [if_neg hact] at hs2
        exact ⟨s2, hs2, rfl, rfl⟩
    | none =>
      rw [hget] at hs2
      exact ⟨s2, hs2, rfl, rfl⟩
  · intro p qq hres
    unfold execOnSession at hres
    cases hget : reg.get sid with
    | some s =>
      rw [hget] at hres
      by_cases hact : s.state = SessionState.active
      · have hres2 : (if s.state = SessionState.active then
              ((some (s.verifiedPrincipal, q) : Option (Principal × String)),
                reg.touch sid now)
            else (none, reg)).1 = some (p, qq) := hres
        rw [if_pos hact] at hres2
        have h2 : (s.verifiedPrincipal, q) = (p, qq) := Option.some.inj hres2
        have hp : s.verifiedPrincipal = p := congrArg Prod.fst h2
        have hq : q = qq := congrArg Prod.snd h2
        obtain ⟨hmem, hid⟩ := get_some_mem reg sid s hget
        exact ⟨s, hmem, hid, hp.symm, hq.symm⟩
      · have hres2 : (if s.state = SessionState.active then
              ((some (s.verifiedPrincipal, q) : Option (Principal × String)),
                reg.touch sid now)
            else (none, reg)).1 = some (p, qq) := hres
        rw [if_neg hact] at hres2
        simp at hres2
    | none =>
      rw [hget] at hres
      simp at hres

/-- C3 witness: touching the registered alice session leaves a session with
the same id and the same verifiedPrincipal. -/
theorem verified_principal_immutable_witness :
    ∃ s ∈ (⟨[⟨1, "alice@co.com", 0, 0, SessionState.active⟩], 2, 100⟩ : Registry).sessions,
      s.sessionId = 1 ∧ s.verifiedPrincipal = "alice@co.com" :=
  (verified_principal_immutable ⟨[⟨1, "alice@co.com", 0, 0, SessionState.active⟩], 2, 100⟩
      1 1 5 "fake@evil.com" "SELECT 1").1
    ⟨1, "alice@co.com", 0, 5, SessionState.active⟩ (by decide)

/-- hasKey on a cons. -/
theorem hasKey_cons (x : Credential × List Nat) (l : List (Credential × List Nat))
    (c : Credential) : hasKey (x :: l) c = (x.1 == c || hasKey l c) := by
  simp [hasKey]

/-- hasKey is membership of the key list. -/
theorem hasKey_true_iff (l : List (Credential × List Nat)) (c : Credential) :
    hasKey l c = true ↔ c ∈ keysOf l := by
  simp [hasKey, keysOf, List.any_eq_true, List.mem_map]

/-- Adding a waiter to an in-flight entry does not change the key list. -/
theorem keysOf_joinMap (l : List (Credential × List Nat)) (c : Credential) (caller : Nat) :
    keysOf (l.map fun kv => if kv.1 == c then (kv.1, caller :: kv.2) else kv) = keysOf l := by
  induction l with
  | nil => rfl
  | cons x xs ih =>
    simp only [keysOf, List.map_cons] at ih ⊢
    rw [ih]
    by_cases hx : (x.1 == c) = true
    · rw [if_pos hx]
    · rw [if_neg hx]

/-- Adding a waiter to an in-flight entry does not change which credentials
are in flight. -/
theorem hasKey_joinMap (l : List (Credential × List Nat)) (c : Credential) (caller : Nat)
    (cp : Credential) :
    hasKey (l.map fun kv => if kv.1 == c then (kv.1, caller :: kv.2) else kv) cp
      = hasKey l cp := by
  induction l with
  | nil => rfl
  | cons x xs ih =>
    simp only [List.map_cons]
    rw [hasKey_cons, hasKey_cons, ih]
    by_cases hx : (x.1 == c) = true
    · rw [if_pos hx]
    · rw [if_neg hx]

/-- Removing a credential's in-flight entry leaves it out of flight. -/
theorem hasKey_filter_self (l : List (Credential × List Nat)) (c : Credential) :
    hasKey (l.filter fun kv => kv.1 != c) c = false := by
  induction l with
  | nil => rfl
  | cons x xs ih =>
    by_cases hx : x.1 = c
    · have h1 : (x.1 != c) = false := by simp [hx]
      simp [List.filter_cons, h1, ih]
    · have h1 : (x.1 != c) = true := by simp [hx]
      simp [List.filter_cons, h1, hasKey_cons, hx, ih]

/-- Removing one credential's in-flight entry leaves the others in flight. -/
theorem hasKey_filter_ne (l : List (Credential × List Nat)) (c cp : Credential)
    (h : cp ≠ c) :
    hasKey (l.filter fun kv => kv.1 != c) cp = hasKey l cp := by
  induction l with
  | nil => rfl
  | cons x xs ih =>
    by_cases hx : x.1 = c
    · have h1 : (x.1 != c) = false := by simp [hx]
      have h2 : (x.1 == cp) = false := by
        simp [hx]
        exact fun heq => h heq.symm
      simp [List.filter_cons, h1, hasKey_cons, h2, ih]
    · have h1 : (x.1 != c) = true := by simp [hx]
      simp [List.filter_cons, h1, hasKey_cons, ih]

/-- The key list of a filtered in-flight map is a sublist of the original. -/
theorem keysOf_filter_sublist (l : List (Credential × List Nat))
    (p : Credential × List Nat → Bool) :
    List.Sublist (keysOf (l.filter p)) (keysOf l) := by
  unfold keysOf
  exact (List.filter_sublist l).map fun kv => kv.1

/-- One interleaving step preserves the coalescing invariant. -/
theorem coalInv_step {s1 s2 : Coalescer} (hstep : CStep s1 s2) (hinv : CoalInv s1) :
    CoalInv s2 := by
  obtain ⟨hnd, hcnt⟩ := hinv
  cases hstep with
  | requestNew caller c h =>
    refine ⟨?_, ?_⟩
    · show (keysOf ((c, [caller]) :: s1.inFlight)).Nodup
      simp only [keysOf, List.map_cons]
      rw [List.nodup_cons]
      refine ⟨?_, hnd⟩
      intro hmem
      have hk : hasKey s1.inFlight c = true := (hasKey_true_iff s1.inFlight c).mpr hmem
      rw [h] at hk
      exact Bool.false_ne_true hk
    · intro cp
      show List.count cp (c :: s1.lookups) =
        List.count cp s1.completed +
          (if hasKey ((c, [caller]) :: s1.inFlight) cp = true then 1 else 0)
      rw [hasKey_cons]
      by_cases hcc : cp = c
      · subst hcc
        have hbase := hcnt cp
        rw [h] at hbase
        simp [List.count_cons, hbase]
      · have hbase := hcnt cp
        have hc1 : (c == cp) = false := by
          simp
          exact fun heq => hcc heq.symm
        simp [List.count_cons, hc1, hcc, hbase]
  | requestJoin caller c h =>
    refine ⟨?_, ?_⟩
    · show (keysOf (s1.inFlight.map fun kv =>
          if kv.1 == c then (kv.1, caller :: kv.2) else kv)).Nodup
      rw [keysOf_joinMap]
      exact hnd
    · intro cp
      show List.count cp s1.lookups =
        List.count cp s1.completed +
          (if hasKey (s1.inFlight.map fun kv =>
              if kv.1 == c then (kv.1, caller :: kv.2) else kv) cp = true then 1 else 0)
      rw [hasKey_joinMap]
      exact hcnt cp
  | complete c ws r h =>
    refine ⟨?_, ?_⟩
    · show (keysOf (s1.inFlight.filter fun kv => kv.1 != c)).Nodup
      exact hnd.sublist (keysOf_filter_sublist s1.inFlight fun kv => kv.1 != c)
    · intro cp
      show List.count cp s1.lookups =
        List.count cp (c :: s1.completed) +
          (if hasKey (s1.inFlight.filter fun kv => kv.1 != c) cp = true then 1 else 0)
      by_cases hcc : cp = c
      · subst hcc
        have hk : hasKey s1.inFlight cp = true := by
          apply List.any_eq_true.mpr
          exact ⟨(cp, ws), h, by simp⟩
        have hbase := hcnt cp
        rw [hk] at hbase
        rw [hasKey_filter_self]
        simp [List.count_cons, hbase]
      · rw [hasKey_filter_ne s1.inFlight c cp hcc]
        have hc1 : (c == cp) = false := by
          simp
          exact fun heq => hcc heq.symm
        simp [List.count_cons, hcc, hc1, hcnt cp]

/-- C9: in every interleaving of concurrent Verify callers, at most one
identity-provider lookup per distinct credential is ever in flight (the
in-flight keys stay duplicate-free, and the lookups issued for a credential
number exactly its completed episodes plus the one possibly in flight), and
all concurrent callers delivered in one completion step share the result of
that single lookup. -/
theorem coalescing_single_lookup_per_credential :
    (∀ st : Coalescer, Reachable st → CoalInv st) ∧
    (∀ st st2 : Coalescer, CStep st st2 →
      ∀ c1 c2 : Nat, ∀ r1 r2 : Except VerifyError Principal,
        (c1, r1) ∈ st2.delivered → (c2, r2) ∈ st2.delivered →
        (c1, r1) ∉ st.delivered → (c2, r2) ∉ st.delivered → r1 = r2) := by
  constructor
  · intro sfin h
    induction h with
    | init =>
      refine ⟨?_, ?_⟩
      · simp [Coalescer.init, keysOf]
      · intro c
        simp [Coalescer.init, hasKey]
    | step hreach hstep ih => exact coalInv_step hstep ih
  · intro st st2 hstep c1 c2 r1 r2 h1 h2 h3 h4
    cases hstep with
    | requestNew caller c h => exact absurd h1 h3
    | requestJoin caller c h => exact absurd h1 h3
    | complete c ws r h =>
      simp only [List.mem_append, List.mem_map] at h1 h2
      have hr1 : r1 = r := by
        rcases h1 with hmap | hold
        · obtain ⟨caller1, hm1, heq⟩ := hmap
          exact (congrArg Prod.snd heq).symm
        · exact absurd hold h3
      have hr2 : r2 = r := by
        rcases h2 with hmap | hold
        · obtain ⟨caller2, hm2, heq⟩ := hmap
          exact (congrArg Prod.snd heq).symm
        · exact absurd hold h4
      rw [hr1, hr2]

/-- C9 witness: after a first request for credential "tok" the coalescing
invariant holds — exactly one lookup issued and one in-flight entry. -/
theorem coalescing_single_lookup_per_credential_witness :
    CoalInv ⟨[("tok", [7])], [], ["tok"], []⟩ :=
  coalescing_single_lookup_per_credential.1 ⟨[("tok", [7])], [], ["tok"], []⟩
    (Reachable.step Reachable.init (CStep.requestNew Coalescer.init 7 "tok" rfl))
